import Mathlib

/-!
Verification development for the sniff agent framework.

This file gives a shallow embedding, in Lean 4, of the parts of the
code base that the specification talks about:

* the Anthropic reasoning-client tool-use loop
  (packages/core/src/llm/anthropic.ts, AnthropicClient.sendMessage);
* the platform event model, the Linear webhook parser, signature
  verification and state normalization
  (packages/core/src/platforms/...);
* the agent runner (packages/core/src/agent/runner.ts);
* the webhook HTTP pipeline (packages/core/src/server/index.ts).

Conventions of the embedding:

* JavaScript strings are Lean String, optional fields are Option,
  and JavaScript truthiness of an optional string (undefined and the
  empty string are falsy) is the function optStrTruthy below.
* Machine numbers are Nat; 32-bit arithmetic in the SHA-256 model is
  Nat with an explicit mod 2^32.
* Callbacks (onInterimText, onToolUse, onThinking) are modelled as an
  event trace: the list of calls the loop performs, in order.
* The network is modelled by a script: the list of API responses the
  backend returns, one per loop iteration.  The loop driver returns
  none when the script is exhausted while the loop would continue.
* Thrown JavaScript exceptions are modelled with Except.
-/

namespace Sniff

/-- JavaScript truthiness of an optional string: undefined and the
empty string are falsy, every other string is truthy. -/
def optStrTruthy : Option String → Bool
  | some s => s != ""
  | none => false

/-- JavaScript or-with-default on an optional string: the string when
it is truthy, the default otherwise.  When the default is the empty
string this agrees with Option.getD. -/
def jsOrStr (o : Option String) (d : String) : String :=
  if optStrTruthy o then o.getD "" else d

/-- The JavaScript WhiteSpace and LineTerminator code points trimmed
by String.prototype.trim. -/
def isJsWhitespace (c : Char) : Bool :=
  ([9, 10, 11, 12, 13, 32, 160, 0x1680, 0x2000, 0x2001, 0x2002, 0x2003, 0x2004, 0x2005,
    0x2006, 0x2007, 0x2008, 0x2009, 0x200a, 0x2028, 0x2029, 0x202f, 0x205f, 0x3000,
    0xfeff] : List Nat).contains c.toNat

/-- The model of JavaScript String.prototype.trim: remove leading and
trailing whitespace and line terminators. -/
def jsTrim (s : String) : String :=
  String.mk (((s.data.dropWhile isJsWhitespace).reverse.dropWhile isJsWhitespace).reverse)

/-! ## Reasoning client data model (anthropic.ts) -/

/-- One content block of an API response.  Mirrors the ContentBlock
interface: a type tag plus optional text, thinking, id, name and input
fields.  The input field (unknown JSON in the source) is carried as an
uninterpreted string. -/
structure ContentBlock where
  type : String
  text : Option String := none
  thinking : Option String := none
  id : Option String := none
  name : Option String := none
  input : Option String := none
deriving DecidableEq, Repr

/-- Token usage of one API response. -/
structure Usage where
  input_tokens : Nat
  output_tokens : Nat
deriving DecidableEq, Repr

/-- One API response: content blocks, stop reason and usage. -/
structure ApiResponse where
  content : List ContentBlock
  stop_reason : String
  usage : Usage
deriving DecidableEq, Repr

/-- One callback invocation performed by the loop: onInterimText,
onToolUse (with the defaulted id, name and input it passes) or
onThinking. -/
inductive CallbackEvent where
  | interimText (text : String)
  | toolUse (id : String) (toolName : String) (input : String)
  | thinking (text : String)
deriving DecidableEq, Repr

/-- One entry of the synthetic tool_result user turn: the
tool_use_id taken from the tool_use block (possibly absent) and an
always-empty content list. -/
structure ToolResultEntry where
  tool_use_id : Option String
  content : List ContentBlock
deriving DecidableEq, Repr

/-- Content of a message in the running buffer: a plain string, the
raw assistant content blocks, or a list of synthetic tool results. -/
inductive MessageContent where
  | text (s : String)
  | blocks (bs : List ContentBlock)
  | toolResults (rs : List ToolResultEntry)
deriving DecidableEq, Repr

/-- A message of the running buffer sent to the API. -/
structure ChatMessage where
  role : String
  content : MessageContent
deriving DecidableEq, Repr

/-- A caller-supplied conversation message (role plus string content). -/
structure ConvMessage where
  role : String
  content : String
deriving DecidableEq, Repr

/-- Block classification used to detect tool use: tool_use,
server_tool_use or mcp_tool_use. -/
def ContentBlock.isToolUseKind (b : ContentBlock) : Bool :=
  b.type == "tool_use" || b.type == "server_tool_use" || b.type == "mcp_tool_use"

/-- Block classification used by the downward scan for the last
tool-related block. -/
def ContentBlock.isToolRelated (b : ContentBlock) : Bool :=
  b.type == "server_tool_use" || b.type == "mcp_tool_use" ||
  b.type == "web_fetch_tool_result" || b.type == "mcp_tool_result" ||
  b.type == "tool_result"

/-- Index of the last tool-related block, or none.  The source scans
downward from the end and stops at the first tool-related block, that
is, it finds the greatest tool-related index; this is the structural
formulation of that scan. -/
def lastToolIdx? : List ContentBlock → Option Nat
  | [] => none
  | b :: rest =>
    match lastToolIdx? rest with
    | some k => some (k + 1)
    | none => if b.isToolRelated then some 0 else none

/-- The lastToolIndex variable of the source: the greatest
tool-related index, or -1 when there is none. -/
def lastToolRelatedIndex (content : List ContentBlock) : Int :=
  (lastToolIdx? content).elim (-1) (fun k => (k : Int))

/-- Callback calls of the server-side branch, processing blocks
sequentially from position i: a text block with truthy text strictly
before the last tool-related index is reported as interim text, and
every server_tool_use or mcp_tool_use block is reported as tool use
(with defaults for missing id, name and input). -/
def serverBranchEventsAux (lastIdx : Int) : Nat → List ContentBlock → List CallbackEvent
  | _, [] => []
  | i, b :: rest =>
    (if b.type == "text" && optStrTruthy b.text && (i : Int) < lastIdx then
      [CallbackEvent.interimText (b.text.getD "")]
    else []) ++
    (if b.type == "server_tool_use" || b.type == "mcp_tool_use" then
      [CallbackEvent.toolUse (b.id.getD "") (b.name.getD "") (b.input.getD "\x7b\x7d")]
    else []) ++
    serverBranchEventsAux lastIdx (i + 1) rest

/-- Text blocks of a list mapped to their (defaulted) text and joined
with newlines: the final-answer extraction of the source. -/
def textsJoined (bs : List ContentBlock) : String :=
  String.intercalate "\n" ((bs.filter (fun b => b.type == "text")).map (fun b => b.text.getD ""))

/-- Interim-text reporting of the client-side branch: all text blocks
joined and trimmed, reported once when non-empty. -/
def clientInterimEvents (content : List ContentBlock) : List CallbackEvent :=
  let interimTextBlocks := content.filter (fun b => b.type == "text")
  if interimTextBlocks.length > 0 then
    let interimText := jsTrim (String.intercalate "\n" (interimTextBlocks.map (fun b => b.text.getD "")))
    if interimText != "" then [CallbackEvent.interimText interimText] else []
  else []

/-- Tool-use reporting of the client-side branch: each tool_use block
among the tool-use blocks is reported with defaulted id, name and
input. -/
def clientToolUseEvents (content : List ContentBlock) : List CallbackEvent :=
  ((content.filter ContentBlock.isToolUseKind).filter (fun b => b.type == "tool_use")).map
    (fun b => CallbackEvent.toolUse (b.id.getD "") (b.name.getD "") (b.input.getD "\x7b\x7d"))

/-- The synthetic tool results of the client-side branch: one entry
with empty content per tool_use block, keyed by the tool_use_id of
that block. -/
def clientToolResults (content : List ContentBlock) : List ToolResultEntry :=
  ((content.filter ContentBlock.isToolUseKind).filter (fun b => b.type == "tool_use")).map
    (fun b => { tool_use_id := b.id, content := [] })

/-- Thinking reporting of the final branch: each thinking block with
truthy thinking text is reported in document order. -/
def finalThinkingEvents (content : List ContentBlock) : List CallbackEvent :=
  (content.filter (fun b => b.type == "thinking")).foldr
    (fun b acc =>
      (if optStrTruthy b.thinking then [CallbackEvent.thinking (b.thinking.getD "")] else []) ++ acc)
    []

/-- Outcome of processing one API response in the loop body: the new
message buffer, the callback calls performed, whether the loop
continues, and the final content set by a terminating branch. -/
structure StepOutcome where
  messages : List ChatMessage
  events : List CallbackEvent
  continueLoop : Bool
  finalContent : String
deriving Repr

/-- One iteration body of the agentic loop of sendMessage, after the
response has arrived: classifies the response, performs callbacks,
updates the message buffer, and decides whether to continue. -/
def stepResponse (messages : List ChatMessage) (data : ApiResponse) : StepOutcome :=
  let toolUseBlocks := data.content.filter ContentBlock.isToolUseKind
  let hasToolUse := toolUseBlocks.length > 0
  let hasServerToolUse := data.content.any (fun b => b.type == "server_tool_use")
  let hasMCPToolUse := data.content.any (fun b => b.type == "mcp_tool_use")
  if hasServerToolUse || hasMCPToolUse then
    let lastIdx := lastToolRelatedIndex data.content
    { messages := messages
      events := serverBranchEventsAux lastIdx 0 data.content
      continueLoop := false
      finalContent := jsTrim (textsJoined (data.content.drop (lastIdx + 1).toNat)) }
  else if hasToolUse && data.stop_reason == "tool_use" then
    { messages := messages ++
        [{ role := "assistant", content := MessageContent.blocks data.content },
         { role := "user", content := MessageContent.toolResults (clientToolResults data.content) }]
      events := clientInterimEvents data.content ++ clientToolUseEvents data.content
      continueLoop := true
      finalContent := "" }
  else
    { messages := messages
      events := finalThinkingEvents data.content
      continueLoop := false
      finalContent := textsJoined data.content }

/-- Result of a completed sendMessage call: the final content and the
cumulative token count it returns, plus (for the verification) the
callback trace, the number of loop iterations performed, and the final
message buffer. -/
structure SendResult where
  content : String
  tokensUsed : Nat
  events : List CallbackEvent
  iterations : Nat
  finalMessages : List ChatMessage
deriving DecidableEq, Repr

/-- The agentic while loop of sendMessage, driven by the scripted list
of API responses, one per iteration.  Returns none when the script is
exhausted while the loop would continue. -/
def runLoop (messages : List ChatMessage) (totalTokensUsed : Nat)
    (events : List CallbackEvent) (iterations : Nat) :
    List ApiResponse → Option SendResult
  | [] => none
  | data :: rest =>
    let out := stepResponse messages data
    let tok := totalTokensUsed + data.usage.input_tokens + data.usage.output_tokens
    if out.continueLoop then
      runLoop out.messages tok (events ++ out.events) (iterations + 1) rest
    else
      some { content := out.finalContent, tokensUsed := tok,
             events := events ++ out.events, iterations := iterations + 1,
             finalMessages := out.messages }

/-- The input validation at the top of sendMessage, with JavaScript
truthiness: an absent or empty userMessage is falsy, an absent
conversationMessages is falsy (a present empty array is truthy).
Returns the thrown error message, if any. -/
def validateOptions (userMessage : Option String)
    (conversationMessages : Option (List ConvMessage)) : Option String :=
  if !(optStrTruthy userMessage) && conversationMessages.isNone then
    some "Either userMessage or conversationMessages must be provided"
  else if optStrTruthy userMessage && conversationMessages.isSome then
    some "Cannot provide both userMessage and conversationMessages"
  else none

/-- AnthropicClient.sendMessage: validate the inputs, build the
initial message buffer, then run the agentic loop against the scripted
responses.  An error value is a thrown exception; ok none means the
script ended while the loop wanted a further request. -/
def sendMessage (userMessage : Option String)
    (conversationMessages : Option (List ConvMessage))
    (responses : List ApiResponse) : Except String (Option SendResult) :=
  match validateOptions userMessage conversationMessages with
  | some err => Except.error err
  | none =>
    let messages : List ChatMessage :=
      match conversationMessages with
      | some ms => ms.map (fun m => { role := m.role, content := MessageContent.text m.content })
      | none => [{ role := "user", content := MessageContent.text (userMessage.getD "") }]
    Except.ok (runLoop messages 0 [] 0 responses)

/-! ## Platform data model (platforms/types.ts) -/

/-- The closed normalized state classification. -/
inductive StateType where
  | backlog
  | unstarted
  | started
  | completed
  | cancelled
deriving DecidableEq, Repr

/-- mapStateType: map a Linear state type string to the normalized
classification.  Identical copies live in the Linear platform file and
the Linear webhook file; this is both. -/
def mapStateType (linearStateType : String) : StateType :=
  if linearStateType = "backlog" then StateType.backlog
  else if linearStateType = "unstarted" then StateType.unstarted
  else if linearStateType = "started" then StateType.started
  else if linearStateType = "completed" then StateType.completed
  else if linearStateType = "canceled" ∨ linearStateType = "cancelled" then StateType.cancelled
  else StateType.unstarted

/-- The actor of a platform event. -/
structure PlatformActor where
  id : String
  name : String
  email : Option String := none
  isBot : Bool
deriving DecidableEq, Repr

/-- Assignee of a normalized issue. -/
structure IssueAssignee where
  id : String
  name : String
  email : Option String := none
deriving DecidableEq, Repr

/-- The normalized issue snapshot.  Date values are carried as their
source strings, since none of the verified properties read them as
times. -/
structure NormalizedIssue where
  id : String
  title : String
  description : String
  state : String
  stateType : StateType
  labels : List String
  priority : Nat
  assignee : Option IssueAssignee := none
  url : String
  createdAt : String
  updatedAt : String
deriving DecidableEq, Repr

/-- A normalized comment. -/
structure NormalizedComment where
  id : String
  body : String
  author : PlatformActor
  createdAt : String
deriving DecidableEq, Repr

/-- A normalized platform event.  The raw provider payload field of
the source is an uninterpreted passthrough and is not represented. -/
structure PlatformEvent where
  type : String
  platform : String
  issue : NormalizedIssue
  actor : PlatformActor
  comment : Option NormalizedComment := none
deriving DecidableEq, Repr

/-- LinearPlatform.shouldProcessEvent: refuse events whose actor is a
bot, accept everything else. -/
def shouldProcessEvent (event : PlatformEvent) : Bool :=
  if event.actor.isBot then false else true

/-! ## Linear webhook payload model and parser (linear/webhook.ts) -/

/-- Creator of an agent session (id, name, email required in the
source payload type). -/
structure SessionCreator where
  id : String
  name : String
  email : String
  avatarUrl : Option String := none
deriving DecidableEq, Repr

/-- The comment attached to an agent session payload. -/
structure SessionComment where
  id : String
  body : String
  issueId : String
deriving DecidableEq, Repr

/-- Team of the issue inside an agent session payload. -/
structure SessionTeam where
  id : String
  key : String
  name : String
deriving DecidableEq, Repr

/-- The issue nested in an agent session payload. -/
structure SessionIssue where
  id : String
  title : String
  teamId : String
  team : SessionTeam
  identifier : String
  url : String
  description : Option String := none
deriving DecidableEq, Repr

/-- A LinearAgentSession payload. -/
structure LinearAgentSession where
  id : String
  createdAt : String
  updatedAt : String
  creatorId : String
  issueId : String
  status : String
  type : String
  creator : SessionCreator
  comment : SessionComment
  issue : SessionIssue
deriving DecidableEq, Repr

/-- Content of an agent activity payload. -/
structure ActivityContent where
  type : String
  body : Option String := none
deriving DecidableEq, Repr

/-- A LinearAgentActivity payload. -/
structure LinearAgentActivity where
  id : String
  createdAt : String
  agentSessionId : String
  content : ActivityContent
deriving DecidableEq, Repr

/-- State object inside a direct issue payload. -/
structure IssueDataState where
  id : String
  name : String
  type : String
deriving DecidableEq, Repr

/-- A user reference inside a direct issue payload (email optional). -/
structure IssueDataUser where
  id : String
  name : String
  email : Option String := none
deriving DecidableEq, Repr

/-- A label inside a direct issue payload. -/
structure IssueDataLabel where
  id : String
  name : String
  color : String
deriving DecidableEq, Repr

/-- A LinearIssueData payload. -/
structure LinearIssueData where
  id : String
  title : String
  description : Option String := none
  priority : Nat
  url : Option String := none
  createdAt : String
  updatedAt : String
  state : Option IssueDataState := none
  team : Option SessionTeam := none
  creator : Option IssueDataUser := none
  assignee : Option IssueDataUser := none
  labels : Option (List IssueDataLabel) := none
deriving DecidableEq, Repr

/-- A Linear webhook payload: discriminator fields plus the three
optional nested shapes. -/
structure LinearWebhookPayload where
  type : String
  action : String
  createdAt : String
  organizationId : String
  agentSession : Option LinearAgentSession := none
  agentActivity : Option LinearAgentActivity := none
  data : Option LinearIssueData := none
deriving DecidableEq, Repr

/-- Actor of a direct issue webhook: the issue creator when present,
a placeholder unknown user otherwise; in both cases not a bot. -/
def issueCreatorActor : Option IssueDataUser → PlatformActor
  | some c => { id := c.id, name := c.name, email := c.email, isBot := false }
  | none => { id := "unknown", name := "Unknown", email := none, isBot := false }

/-- parseLinearWebhook: normalize a Linear webhook payload into a
platform event, or none when the payload shape should be ignored. -/
def parseLinearWebhook (webhook : LinearWebhookPayload) : Option PlatformEvent :=
  match webhook.type == "AgentSession", webhook.agentSession with
  | true, some session =>
    let issue := session.issue
    let normalizedIssue : NormalizedIssue :=
      { id := issue.id, title := issue.title, description := issue.description.getD "",
        state := "unknown", stateType := StateType.unstarted, labels := [], priority := 0,
        assignee := none, url := issue.url,
        createdAt := session.createdAt, updatedAt := session.updatedAt }
    let actor : PlatformActor :=
      { id := session.creator.id, name := session.creator.name,
        email := some session.creator.email, isBot := false }
    some { type := "mention", platform := "linear", issue := normalizedIssue, actor := actor,
           comment := some { id := session.comment.id, body := session.comment.body,
                             author := actor, createdAt := session.createdAt } }
  | _, _ =>
    match webhook.type == "AgentActivity", webhook.agentActivity, webhook.agentSession with
    | true, some activity, some session =>
      if activity.content.type ≠ "prompt" then none
      else
        let issue := session.issue
        let normalizedIssue : NormalizedIssue :=
          { id := issue.id, title := issue.title, description := issue.description.getD "",
            state := "unknown", stateType := StateType.unstarted, labels := [], priority := 0,
            assignee := none, url := issue.url,
            createdAt := session.createdAt, updatedAt := activity.createdAt }
        let actor : PlatformActor :=
          { id := session.creator.id, name := session.creator.name,
            email := some session.creator.email, isBot := false }
        some { type := "comment_created", platform := "linear",
               issue := normalizedIssue, actor := actor,
               comment := some { id := activity.id, body := activity.content.body.getD "",
                                 author := actor, createdAt := activity.createdAt } }
    | _, _, _ =>
      match webhook.type == "Issue", webhook.data with
      | true, some issue =>
        let normalizedIssue : NormalizedIssue :=
          { id := issue.id, title := issue.title, description := issue.description.getD "",
            state := jsOrStr (issue.state.map IssueDataState.name) "unknown",
            stateType := mapStateType (jsOrStr (issue.state.map IssueDataState.type) "unstarted"),
            labels := ((issue.labels.map (fun ls => ls.map IssueDataLabel.name)).getD []),
            priority := issue.priority,
            assignee := issue.assignee.map (fun a =>
              { id := a.id, name := a.name, email := a.email }),
            url := issue.url.getD "",
            createdAt := issue.createdAt, updatedAt := issue.updatedAt }
        let actor : PlatformActor := issueCreatorActor issue.creator
        let eventType := if webhook.action = "create" then "issue_created" else "issue_updated"
        some { type := eventType, platform := "linear", issue := normalizedIssue, actor := actor,
               comment := none }
      | _, _ => none

/-! ## Webhook signature verification (linear/webhook.ts)

The source computes an HMAC-SHA256 hex digest with the Node crypto
module and compares it against the supplied signature with
crypto.timingSafeEqual on the UTF-8 byte buffers.  The Node primitives
are embedded concretely: UTF-8 encoding, SHA-256 and HMAC are defined
below from their standard specifications (FIPS 180-4 and RFC 2104),
over byte lists (Nat values below 256) with 32-bit words as Nat values
reduced mod 2^32.  timingSafeEqual throws when the two buffers differ
in byte length; this documented Node behaviour is part of the model. -/

/-- UTF-8 encoding of one character (by Unicode scalar value ranges),
as the list of its bytes. -/
def utf8EncodeCharNat (c : Char) : List Nat :=
  let n := c.toNat
  if n < 128 then [n]
  else if n < 2048 then [192 + (n >>> 6), 128 + (n &&& 63)]
  else if n < 65536 then
    [224 + (n >>> 12), 128 + ((n >>> 6) &&& 63), 128 + (n &&& 63)]
  else
    [240 + (n >>> 18), 128 + ((n >>> 12) &&& 63),
     128 + ((n >>> 6) &&& 63), 128 + (n &&& 63)]

/-- UTF-8 bytes of a string (the model of Buffer.from(s, utf8)). -/
def utf8Bytes (s : String) : List Nat :=
  (s.data.map utf8EncodeCharNat).flatten

/-- Truncation to a 32-bit word. -/
def w32 (n : Nat) : Nat := n % 4294967296

/-- Right rotation of a 32-bit word. -/
def rotr32 (n x : Nat) : Nat := w32 ((x >>> n) ||| (x <<< (32 - n)))

/-- SHA-256 big sigma 0. -/
def bsig0 (x : Nat) : Nat := rotr32 2 x ^^^ rotr32 13 x ^^^ rotr32 22 x

/-- SHA-256 big sigma 1. -/
def bsig1 (x : Nat) : Nat := rotr32 6 x ^^^ rotr32 11 x ^^^ rotr32 25 x

/-- SHA-256 small sigma 0. -/
def ssig0 (x : Nat) : Nat := rotr32 7 x ^^^ rotr32 18 x ^^^ (x >>> 3)

/-- SHA-256 small sigma 1. -/
def ssig1 (x : Nat) : Nat := rotr32 17 x ^^^ rotr32 19 x ^^^ (x >>> 10)

/-- SHA-256 choice function (the complement taken within 32 bits). -/
def chF (x y z : Nat) : Nat := (x &&& y) ^^^ ((x ^^^ 4294967295) &&& z)

/-- SHA-256 majority function. -/
def majF (x y z : Nat) : Nat := (x &&& y) ^^^ (x &&& z) ^^^ (y &&& z)

/-- The 64 SHA-256 round constants. -/
def sha256K : List Nat :=
  [1116352408, 1899447441, 3049323471, 3921009573, 961987163,
   1508970993, 2453635748, 2870763221, 3624381080, 310598401,
   607225278, 1426881987, 1925078388, 2162078206, 2614888103,
   3248222580, 3835390401, 4022224774, 264347078, 604807628,
   770255983, 1249150122, 1555081692, 1996064986, 2554220882,
   2821834349, 2952996808, 3210313671, 3336571891, 3584528711,
   113926993, 338241895, 666307205, 773529912, 1294757372,
   1396182291, 1695183700, 1986661051, 2177026350, 2456956037,
   2730485921, 2820302411, 3259730800, 3345764771, 3516065817,
   3600352804, 4094571909, 275423344, 430227734, 506948616,
   659060556, 883997877, 958139571, 1322822218, 1537002063,
   1747873779, 1955562222, 2024104815, 2227730452, 2361852424,
   2428436474, 2756734187, 3204031479, 3329325298]

/-- The initial SHA-256 hash values. -/
def sha256H0 : List Nat :=
  [1779033703, 3144134277, 1013904242, 2773480762, 1359893119,
   2600822924, 528734635, 1541459225]

/-- Big-endian bytes of a value, over a given byte count. -/
def toBytesBE (count : Nat) (v : Nat) : List Nat :=
  (List.range count).map (fun i => (v >>> (8 * (count - 1 - i))) % 256)

/-- SHA-256 padding: append the 0x80 byte, zeros up to 56 mod 64, and
the 8-byte big-endian bit length. -/
def sha256Pad (msg : List Nat) : List Nat :=
  let L := msg.length
  let k := (64 - (L + 9) % 64) % 64
  msg ++ [128] ++ List.replicate k 0 ++ toBytesBE 8 (L * 8)

/-- Big-endian 32-bit words from a byte list (groups of four). -/
def bytesToWords : List Nat → List Nat
  | b0 :: b1 :: b2 :: b3 :: rest => (((b0 * 256 + b1) * 256 + b2) * 256 + b3) :: bytesToWords rest
  | _ => []

/-- Extension of the reversed message schedule by n further words. -/
def scheduleAux : Nat → List Nat → List Nat
  | 0, acc => acc
  | n + 1, acc =>
    let w := w32 (ssig1 (acc.getD 1 0) + acc.getD 6 0 + ssig0 (acc.getD 14 0) + acc.getD 15 0)
    scheduleAux n (w :: acc)

/-- The 64-word message schedule of one 16-word block. -/
def sha256Schedule (block : List Nat) : List Nat :=
  (scheduleAux 48 block.reverse).reverse

/-- The eight working variables of the compression function. -/
structure Sha256State where
  a : Nat
  b : Nat
  c : Nat
  d : Nat
  e : Nat
  f : Nat
  g : Nat
  h : Nat
deriving Repr

/-- One SHA-256 round. -/
def sha256Round (st : Sha256State) (k w : Nat) : Sha256State :=
  let t1 := w32 (st.h + bsig1 st.e + chF st.e st.f st.g + k + w)
  let t2 := w32 (bsig0 st.a + majF st.a st.b st.c)
  { a := w32 (t1 + t2), b := st.a, c := st.b, d := st.c,
    e := w32 (st.d + t1), f := st.e, g := st.f, h := st.g }

/-- The SHA-256 compression function of one 16-word block. -/
def sha256Compress (hs block : List Nat) : List Nat :=
  let ws := sha256Schedule block
  let st0 : Sha256State :=
    { a := hs.getD 0 0, b := hs.getD 1 0, c := hs.getD 2 0, d := hs.getD 3 0,
      e := hs.getD 4 0, f := hs.getD 5 0, g := hs.getD 6 0, h := hs.getD 7 0 }
  let st := (sha256K.zip ws).foldl (fun st p => sha256Round st p.1 p.2) st0
  [w32 (hs.getD 0 0 + st.a), w32 (hs.getD 1 0 + st.b), w32 (hs.getD 2 0 + st.c),
   w32 (hs.getD 3 0 + st.d), w32 (hs.getD 4 0 + st.e), w32 (hs.getD 5 0 + st.f),
   w32 (hs.getD 6 0 + st.g), w32 (hs.getD 7 0 + st.h)]

/-- Fold of the compression function over the 16-word blocks, with
structural fuel (each step consumes sixteen words, so the word count
is ample fuel). -/
def sha256FoldAux : Nat → List Nat → List Nat → List Nat
  | 0, hs, _ => hs
  | _ + 1, hs, [] => hs
  | fuel + 1, hs, ws => sha256FoldAux fuel (sha256Compress hs (ws.take 16)) (ws.drop 16)

/-- Fold of the compression function over the 16-word blocks of the
padded message. -/
def sha256Fold (hs ws : List Nat) : List Nat :=
  sha256FoldAux ws.length hs ws

/-- SHA-256 of a byte list, as its 32 digest bytes. -/
def sha256Bytes (msg : List Nat) : List Nat :=
  ((sha256Fold sha256H0 (bytesToWords (sha256Pad msg))).map (toBytesBE 4)).flatten

/-- A hex digit character (lowercase, as Node digest hex). -/
def hexDigitChar : Nat → Char
  | 0 => '0' | 1 => '1' | 2 => '2' | 3 => '3' | 4 => '4' | 5 => '5' | 6 => '6' | 7 => '7'
  | 8 => '8' | 9 => '9' | 10 => 'a' | 11 => 'b' | 12 => 'c' | 13 => 'd' | 14 => 'e' | 15 => 'f'
  | _ => '0'

/-- Lowercase hex string of a byte list. -/
def bytesToHex (bs : List Nat) : String :=
  String.mk ((bs.map (fun b => [hexDigitChar (b / 16), hexDigitChar (b % 16)])).flatten)

/-- HMAC-SHA256 digest bytes for a key and a message (RFC 2104 with a
64-byte block). -/
def hmacSha256 (key msg : List Nat) : List Nat :=
  let k0 := if key.length > 64 then sha256Bytes key else key
  let kp := k0 ++ List.replicate (64 - k0.length) 0
  let ipadKey := kp.map (fun b => b ^^^ 54)
  let opadKey := kp.map (fun b => b ^^^ 92)
  sha256Bytes (opadKey ++ sha256Bytes (ipadKey ++ msg))

/-- HMAC-SHA256 lowercase hex digest of strings, the model of
crypto.createHmac(sha256, secret).update(payload).digest(hex). -/
def hmacSha256Hex (key msg : List Nat) : String :=
  bytesToHex (hmacSha256 key msg)

deriving instance DecidableEq for Except

/-- crypto.timingSafeEqual on two byte buffers: throws when the byte
lengths differ, otherwise compares for equality. -/
def timingSafeEqual (a b : List Nat) : Except String Bool :=
  if a.length = b.length then Except.ok (a == b)
  else Except.error "Input buffers must have the same byte length"

/-- verifyLinearWebhook: false for an empty secret or signature,
otherwise a timingSafeEqual comparison of the signature bytes against
the expected hex digest bytes. -/
def verifyLinearWebhook (payload signature secret : String) : Except String Bool :=
  if secret == "" || signature == "" then Except.ok false
  else
    let expectedSignature := hmacSha256Hex (utf8Bytes secret) (utf8Bytes payload)
    timingSafeEqual (utf8Bytes signature) (utf8Bytes expectedSignature)

/-- LinearPlatform.verifyWebhook: permissively true when no webhook
secret is configured (a falsy secret, that is, absent or empty),
otherwise verifyLinearWebhook. -/
def linearPlatformVerifyWebhook (webhookSecret : Option String)
    (payload signature : String) : Except String Bool :=
  if !(optStrTruthy webhookSecret) then Except.ok true
  else verifyLinearWebhook payload signature (webhookSecret.getD "")

/-! ## Agent runner (agent/runner.ts) -/

/-- An activity update sent to the platform. -/
structure Activity where
  type : String
  message : String
  toolName : Option String := none
  toolInput : Option String := none
deriving DecidableEq, Repr

/-- One provider-level operation the runner performs through the
platform: an activity report (sendActivity) or a textual reply
(sendResponse).  Context fields (issue id, session id) are orthogonal
to the verified properties and are not carried. -/
inductive PlatformOp where
  | sendActivity (a : Activity)
  | sendResponse (message : String)
deriving DecidableEq, Repr

/-- Whether a platform operation is the provider-level textual reply. -/
def PlatformOp.isSendResponse : PlatformOp → Bool
  | PlatformOp.sendResponse _ => true
  | _ => false

/-- The result value of one agent run. -/
structure AgentRunResult where
  success : Bool
  response : Option String := none
  tokensUsed : Option Nat := none
  error : Option String := none
deriving DecidableEq, Repr

/-- How the runner forwards one reasoning-client callback to
sendActivity: tool use becomes a tool_use activity, thinking and
interim text both become thinking activities. -/
def eventToActivity : CallbackEvent → Activity
  | CallbackEvent.toolUse _ toolName input =>
    { type := "tool_use", message := "Using " ++ toolName,
      toolName := some toolName, toolInput := some input }
  | CallbackEvent.thinking t => { type := "thinking", message := t }
  | CallbackEvent.interimText t => { type := "thinking", message := t }

/-- runAgent, over the outcome of the reasoning-client call (its
result together with the callback trace it produced, or the thrown
error).  Produces the ordered list of platform operations the run
performs and the run result.  The prompt assembly that feeds the
reasoning client is upstream of this boundary. -/
def runAgentModel (agentName : String) (event : PlatformEvent)
    (conversationHistory : Option (List ConvMessage))
    (llmOutcome : Except String SendResult) : List PlatformOp × AgentRunResult :=
  let isConversation :=
    conversationHistory.isSome && (conversationHistory.getD []).length > 0
  let initialThinking : Activity :=
    { type := "thinking",
      message := if isConversation then "[Agent: " ++ agentName ++ "] Thinking..."
                 else "[Agent: " ++ agentName ++ "] Analyzing issue..." }
  match llmOutcome with
  | Except.ok res =>
    (PlatformOp.sendActivity initialThinking ::
      (res.events.map (fun e => PlatformOp.sendActivity (eventToActivity e)) ++
       [PlatformOp.sendActivity
         { type := "responding",
           message := "[Agent: " ++ agentName ++ "]\n\n" ++ res.content }]),
     { success := true, response := some res.content, tokensUsed := some res.tokensUsed })
  | Except.error msg =>
    ([PlatformOp.sendActivity initialThinking,
      PlatformOp.sendActivity
        { type := "error", message := "[Agent: " ++ agentName ++ "] Error: " ++ msg }],
     { success := false, error := some msg })

/-! ## Webhook HTTP pipeline (server/index.ts) -/

/-- An agent definition, as far as the server pipeline reads it. -/
structure AgentConfig where
  id : String
  name : String
  systemPrompt : String
deriving DecidableEq, Repr

/-- A platform, as the server consumes it: name plus the pure webhook
capabilities.  Body decoding and event parsing are merged into one
parse function on the raw body. -/
structure PlatformModel where
  name : String
  verifyWebhook : String → String → Bool
  parseWebhookEvent : String → Option PlatformEvent
  shouldProcessEvent : PlatformEvent → Bool

/-- An HTTP response of the webhook endpoint. -/
structure HttpResponse where
  status : Nat
  body : String
deriving DecidableEq, Repr

/-- The platform lookup map built from the platform list: a later
platform with the same name overwrites an earlier one. -/
def platformLookup (platforms : List PlatformModel) (name : String) : Option PlatformModel :=
  platforms.foldl (fun acc p => if p.name == name then some p else acc) none

/-- findAgentForEvent: the first configured agent, ignoring the
event. -/
def findAgentForEvent (agents : List AgentConfig) (_event : PlatformEvent) : Option AgentConfig :=
  agents.head?

/-- The POST /webhook/:platform pipeline: platform lookup, signature
verification, parse, filter, agent selection, acknowledgement, then
asynchronous dispatch of the agent run.  Returns the HTTP response
together with the platform operations of the dispatched run (empty
when no run is dispatched).  The reasoning-backend interaction of the
dispatched run is scripted by llmOutcome; the response is written
before the run starts and a failing run is only logged. -/
def handleWebhook (platforms : List PlatformModel) (agents : List AgentConfig)
    (provider body signature : String)
    (llmOutcome : Except String SendResult) : HttpResponse × List PlatformOp :=
  match platformLookup platforms provider with
  | none =>
    ({ status := 404, body := "\x7b\"error\":\"Unknown platform: " ++ provider ++ "\"\x7d" }, [])
  | some platform =>
    if !(platform.verifyWebhook body signature) then
      ({ status := 401, body := "\x7b\"error\":\"Invalid webhook signature\"\x7d" }, [])
    else
      match platform.parseWebhookEvent body with
      | none => ({ status := 200, body := "\x7b\"status\":\"ignored\"\x7d" }, [])
      | some event =>
        if !(platform.shouldProcessEvent event) then
          ({ status := 200, body := "\x7b\"status\":\"skipped\"\x7d" }, [])
        else
          match findAgentForEvent agents event with
          | none => ({ status := 200, body := "\x7b\"status\":\"no_matching_agent\"\x7d" }, [])
          | some agent =>
            ({ status := 200, body := "\x7b\"status\":\"processing\"\x7d" },
             (runAgentModel agent.name event none llmOutcome).1)

/-! ## Concrete fixtures used by witnesses and counterexamples -/

/-- A minimal normalized issue fixture. -/
def issueFix : NormalizedIssue :=
  { id := "i1", title := "Login broken", description := "", state := "unknown",
    stateType := StateType.unstarted, labels := [], priority := 0, assignee := none,
    url := "", createdAt := "2024-01-01", updatedAt := "2024-01-01" }

/-- An event fixture with a human actor. -/
def humanEvent : PlatformEvent :=
  { type := "mention", platform := "linear", issue := issueFix,
    actor := { id := "u1", name := "Ada", email := none, isBot := false }, comment := none }

/-- An event fixture with a bot actor. -/
def botEvent : PlatformEvent :=
  { type := "comment_created", platform := "linear", issue := issueFix,
    actor := { id := "bot1", name := "Automation", email := none, isBot := true },
    comment := none }

/-- A platform fixture whose parser yields the bot event. -/
def pmBot : PlatformModel :=
  { name := "linear", verifyWebhook := fun _ _ => true,
    parseWebhookEvent := fun _ => some botEvent,
    shouldProcessEvent := shouldProcessEvent }

/-- A platform fixture whose parser yields the human event. -/
def pmHuman : PlatformModel :=
  { name := "linear", verifyWebhook := fun _ signature => signature == "good",
    parseWebhookEvent := fun body => if body == "ignore" then none else some humanEvent,
    shouldProcessEvent := shouldProcessEvent }

/-- An agent configuration fixture. -/
def agentFix : AgentConfig :=
  { id := "agent-1", name := "Triage", systemPrompt := "triage issues" }

/-- A direct issue webhook payload fixture. -/
def payloadP0 : LinearWebhookPayload :=
  { type := "Issue", action := "create", createdAt := "2024-01-01", organizationId := "org",
    data := some { id := "i1", title := "Login broken", priority := 2,
                   createdAt := "2024-01-01", updatedAt := "2024-01-02" } }

/-- The normalized event the parser produces from payloadP0. -/
def eventE0 : PlatformEvent :=
  { type := "issue_created", platform := "linear",
    issue := { id := "i1", title := "Login broken", description := "", state := "unknown",
               stateType := StateType.unstarted, labels := [], priority := 2, assignee := none,
               url := "", createdAt := "2024-01-01", updatedAt := "2024-01-02" },
    actor := { id := "unknown", name := "Unknown", email := none, isBot := false },
    comment := none }

/-- A response fixture that waits on one caller-managed tool. -/
def dataC2 : ApiResponse :=
  { content := [{ type := "tool_use", id := some "t1", name := some "lookup",
                  input := some "\x7b\x7d" }],
    stop_reason := "tool_use", usage := { input_tokens := 3, output_tokens := 4 } }

/-- A response fixture with one server-managed tool-use block followed
by one text block. -/
def rC1 : ApiResponse :=
  { content := [{ type := "server_tool_use", id := some "s1", name := some "web_search",
                  input := some "\x7b\"q\":\"x\"\x7d" },
                { type := "text", text := some "  The answer.  " }],
    stop_reason := "end_turn", usage := { input_tokens := 10, output_tokens := 5 } }

/-- A response fixture with an empty text block strictly before the
last tool-related block. -/
def rC1bad : ApiResponse :=
  { content := [{ type := "text", text := some "" },
                { type := "server_tool_use", id := some "s1", name := some "web_search",
                  input := some "\x7b\x7d" },
                { type := "text", text := some "ok" }],
    stop_reason := "end_turn", usage := { input_tokens := 1, output_tokens := 1 } }

/-- A final text-only response fixture. -/
def rFinal : ApiResponse :=
  { content := [{ type := "text", text := some "done" }],
    stop_reason := "end_turn", usage := { input_tokens := 7, output_tokens := 2 } }

/-- The completed result of the two-iteration script dataC2, rFinal. -/
def resC8 : SendResult :=
  { content := "done", tokensUsed := 16,
    events := [CallbackEvent.toolUse "t1" "lookup" "\x7b\x7d"], iterations := 2,
    finalMessages :=
      [{ role := "user", content := MessageContent.text "hi" },
       { role := "assistant",
         content := MessageContent.blocks
           [{ type := "tool_use", id := some "t1", name := some "lookup",
              input := some "\x7b\x7d" }] },
       { role := "user",
         content := MessageContent.toolResults [{ tool_use_id := some "t1", content := [] }] }] }

/-- A completed reasoning-client result fixture. -/
def resFix : SendResult :=
  { content := "All good.", tokensUsed := 12, events := [], iterations := 1,
    finalMessages := [] }

/-! ## Theorems -/

set_option maxRecDepth 100000

/-- C4 counterexample: the provider state string canceled (one l) is
outside the canonical five-value set of the claim, yet mapStateType
sends it to cancelled, not to unstarted.  This refutes the claim that
every string outside the canonical set normalizes to unstarted. -/
theorem map_state_type_canceled_counterexample :
    mapStateType "canceled" = StateType.cancelled ∧
    mapStateType "canceled" ≠ StateType.unstarted ∧
    "canceled" ∉ (["backlog", "unstarted", "started", "completed", "cancelled"] : List String) := by
  decide

/-- C4 amended: every provider state string outside the recognized
input set (the five canonical values plus the alternate spelling
canceled) maps to unstarted, and mapStateType always yields one of the
five canonical values, never an undefined state. -/
theorem map_state_type_unmapped_defaults (s : String) :
    (s ∉ (["backlog", "unstarted", "started", "completed", "canceled", "cancelled"] :
        List String) → mapStateType s = StateType.unstarted) ∧
    (mapStateType s = StateType.backlog ∨ mapStateType s = StateType.unstarted ∨
     mapStateType s = StateType.started ∨ mapStateType s = StateType.completed ∨
     mapStateType s = StateType.cancelled) := by
  constructor
  · intro h
    simp only [List.mem_cons, List.mem_singleton, not_or] at h
    obtain ⟨h1, h2, h3, h4, h5, h6⟩ := h
    simp [mapStateType, h1, h2, h3, h4, h5, h6]
  · unfold mapStateType
    split_ifs <;> simp

/-- C4 witness: the amended theorem applied to the concrete unmapped
provider state string triage. -/
theorem map_state_type_unmapped_defaults_witness :
    "triage" ∉ (["backlog", "unstarted", "started", "completed", "canceled", "cancelled"] :
        List String) ∧ mapStateType "triage" = StateType.unstarted :=
  ⟨by decide, (map_state_type_unmapped_defaults "triage").1 (by decide)⟩

/-- C7 counterexample: with a supplied (but empty) user message and no
conversation history, exactly one of the two inputs is supplied, yet
sendMessage throws its neither-supplied validation error, because the
empty string is falsy in the source check.  This refutes the claim
that the precondition check raises no error whenever exactly one of
the two is supplied. -/
theorem send_message_validation_counterexample :
    (some "" : Option String).isSome = true ∧
    (none : Option (List ConvMessage)).isNone = true ∧
    sendMessage (some "") none [] =
      Except.error "Either userMessage or conversationMessages must be provided" := by
  exact ⟨rfl, rfl, rfl⟩

/-- C7 amended: sendMessage throws before any request exactly when
either no truthy user message and no conversation history is supplied
(an empty user message counting as not supplied), or a truthy user
message and a conversation history are both supplied; otherwise the
precondition check passes. -/
theorem send_message_validation_iff (u : Option String) (c : Option (List ConvMessage))
    (rs : List ApiResponse) :
    (∃ e, sendMessage u c rs = Except.error e) ↔
      ((optStrTruthy u = false ∧ c = none) ∨ (optStrTruthy u = true ∧ c.isSome = true)) := by
  unfold sendMessage validateOptions
  cases hu : optStrTruthy u <;> cases c <;> simp [hu]

/-- C7 witness: the amended characterization applied to concrete
inputs, both a throwing instance (user message and history both
supplied) and a passing instance. -/
theorem send_message_validation_iff_witness :
    ((∃ e, sendMessage (some "hi") (some []) [] = Except.error e) ↔
      ((optStrTruthy (some "hi") = false ∧ (some [] : Option (List ConvMessage)) = none) ∨
       (optStrTruthy (some "hi") = true ∧ (some [] : Option (List ConvMessage)).isSome = true))) ∧
    ((∃ e, sendMessage none (some []) [] = Except.error e) ↔
      ((optStrTruthy none = false ∧ (some [] : Option (List ConvMessage)) = none) ∨
       (optStrTruthy none = true ∧ (some [] : Option (List ConvMessage)).isSome = true))) :=
  ⟨send_message_validation_iff (some "hi") (some []) [],
   send_message_validation_iff none (some []) []⟩

/-- C9: an event whose actor is a bot is rejected by
shouldProcessEvent, and through any platform wired to that filter the
webhook pipeline answers skipped and dispatches no agent run. -/
theorem bot_events_filtered (event : PlatformEvent) (hbot : event.actor.isBot = true) :
    shouldProcessEvent event = false ∧
    ∀ (platforms : List PlatformModel) (agents : List AgentConfig)
      (provider body signature : String) (llmOutcome : Except String SendResult)
      (pf : PlatformModel),
      platformLookup platforms provider = some pf →
      pf.shouldProcessEvent = shouldProcessEvent →
      pf.verifyWebhook body signature = true →
      pf.parseWebhookEvent body = some event →
      handleWebhook platforms agents provider body signature llmOutcome =
        ({ status := 200, body := "\x7b\"status\":\"skipped\"\x7d" }, []) := by
  constructor
  · simp [shouldProcessEvent, hbot]
  · intro platforms agents provider body signature llmOutcome pf hlookup hsp hverify hparse
    simp [handleWebhook, hlookup, hverify, hparse, hsp, shouldProcessEvent, hbot]

/-- C9 witness: the bot filter applied to the concrete bot event and
the concrete platform fixture. -/
theorem bot_events_filtered_witness :
    shouldProcessEvent botEvent = false ∧
    handleWebhook [pmBot] [agentFix] "linear" "body" "sig" (Except.error "unused") =
      ({ status := 200, body := "\x7b\"status\":\"skipped\"\x7d" }, []) :=
  ⟨(bot_events_filtered botEvent rfl).1,
   (bot_events_filtered botEvent rfl).2 [pmBot] [agentFix] "linear" "body" "sig"
     (Except.error "unused") pmBot rfl rfl rfl rfl⟩

/-- C10: every event the Linear webhook parser produces, in any of its
three recognized payload shapes, carries a non-bot actor, so the bot
filter accepts it. -/
theorem parse_linear_webhook_actor_not_bot (payload : LinearWebhookPayload)
    (event : PlatformEvent) (h : parseLinearWebhook payload = some event) :
    event.actor.isBot = false ∧ shouldProcessEvent event = true := by
  unfold parseLinearWebhook at h
  split at h
  · injection h with h2
    subst h2
    exact ⟨rfl, rfl⟩
  · split at h
    · split at h
      · exact absurd h (by simp)
      · injection h with h2
        subst h2
        exact ⟨rfl, rfl⟩
    · split at h
      · injection h with h2
        subst h2
        refine ⟨?_, ?_⟩
        · cases hcreator : LinearIssueData.creator _ <;> simp [issueCreatorActor, hcreator]
        · cases hcreator : LinearIssueData.creator _ <;>
            simp [shouldProcessEvent, issueCreatorActor, hcreator]
      · exact absurd h (by simp)

/-- C10 witness: the parser applied to the concrete direct-issue
payload fixture produces the expected non-bot event. -/
theorem parse_linear_webhook_actor_not_bot_witness :
    parseLinearWebhook payloadP0 = some eventE0 ∧
    eventE0.actor.isBot = false ∧ shouldProcessEvent eventE0 = true :=
  ⟨rfl, (parse_linear_webhook_actor_not_bot payloadP0 eventE0 rfl).1,
   (parse_linear_webhook_actor_not_bot payloadP0 eventE0 rfl).2⟩

/-- C2: on a response with stop_reason tool_use, at least one tool_use
block and no server-managed or externally-routed tool block, the loop
body appends exactly the assistant turn with the raw content and a
synthetic user turn with one empty tool result per tool_use block
keyed by its invocation id, and the loop continues. -/
theorem client_tool_wait_appends_two_messages (messages : List ChatMessage)
    (data : ApiResponse) (hstop : data.stop_reason = "tool_use")
    (htool : data.content.any (fun b => b.type == "tool_use") = true)
    (hns : ∀ b ∈ data.content, b.type ≠ "server_tool_use" ∧ b.type ≠ "mcp_tool_use") :
    (stepResponse messages data).continueLoop = true ∧
    (stepResponse messages data).messages =
      messages ++
        [{ role := "assistant", content := MessageContent.blocks data.content },
         { role := "user",
           content := MessageContent.toolResults
             ((data.content.filter (fun b => b.type == "tool_use")).map
               (fun b => { tool_use_id := b.id, content := [] })) }] ∧
    (stepResponse messages data).messages.length = messages.length + 2 := by
  have hserver : data.content.any (fun b => b.type == "server_tool_use") = false := by
    rw [List.any_eq_false]
    intro b hb
    simp [(hns b hb).1]
  have hmcp : data.content.any (fun b => b.type == "mcp_tool_use") = false := by
    rw [List.any_eq_false]
    intro b hb
    simp [(hns b hb).2]
  have htu : data.content.filter ContentBlock.isToolUseKind =
      data.content.filter (fun b => b.type == "tool_use") := by
    apply List.filter_congr
    intro b hb
    have h1 : (b.type == "server_tool_use") = false := beq_eq_false_iff_ne.mpr (hns b hb).1
    have h2 : (b.type == "mcp_tool_use") = false := beq_eq_false_iff_ne.mpr (hns b hb).2
    simp [ContentBlock.isToolUseKind, h1, h2]
  have hlen : 0 < (data.content.filter (fun b => b.type == "tool_use")).length := by
    obtain ⟨b, hb, hbt⟩ := List.any_eq_true.mp htool
    exact List.length_pos.mpr (List.ne_nil_of_mem (List.mem_filter.mpr ⟨hb, hbt⟩))
  simp only [stepResponse, hserver, hmcp, Bool.or_self, Bool.false_or, if_false,
    Bool.or_false, htu, clientToolResults, hstop]
  simp [hlen, List.filter_filter]

/-- C2 witness: the loop body applied to the concrete
caller-managed-tool response fixture. -/
theorem client_tool_wait_appends_two_messages_witness :
    (stepResponse [] dataC2).continueLoop = true ∧
    (stepResponse [] dataC2).messages =
      [] ++
        [{ role := "assistant", content := MessageContent.blocks dataC2.content },
         { role := "user",
           content := MessageContent.toolResults
             ((dataC2.content.filter (fun b => b.type == "tool_use")).map
               (fun b => { tool_use_id := b.id, content := [] })) }] ∧
    (stepResponse [] dataC2).messages.length = List.length ([] : List ChatMessage) + 2 :=
  client_tool_wait_appends_two_messages [] dataC2 rfl (by decide) (by decide)

/-- C3 counterexample: a successful agent run whose operation trace
contains no provider-level sendResponse call at all; the run only
reports activities.  This refutes the claim that on success runAgent
also performs the provider-level textual reply. -/
theorem run_agent_no_send_response_counterexample :
    (runAgentModel "Triage" humanEvent none (Except.ok resFix)).2.success = true ∧
    (runAgentModel "Triage" humanEvent none (Except.ok resFix)).1.any
      (fun op => op.isSendResponse) = false := by
  decide

/-- The last element of a cons followed by an appended singleton. -/
theorem getLast?_cons_append_single {α : Type _} (a c : α) :
    ∀ l : List α, (a :: (l ++ [c])).getLast? = some c
  | [] => rfl
  | x :: xs => by
    rw [List.cons_append, List.getLast?_cons_cons]
    exact getLast?_cons_append_single x c xs

/-- C3 amended: on every successful run the runner prefixes the final
answer with the agent-identifying header and reports it as the last
operation, a responding activity through sendActivity; no
provider-level sendResponse operation occurs anywhere in the trace,
and the run result carries the unprefixed answer and token count. -/
theorem run_agent_success_reports_responding (agentName : String) (event : PlatformEvent)
    (hist : Option (List ConvMessage)) (res : SendResult) :
    (runAgentModel agentName event hist (Except.ok res)).1.getLast? =
      some (PlatformOp.sendActivity
        { type := "responding",
          message := "[Agent: " ++ agentName ++ "]\n\n" ++ res.content }) ∧
    (runAgentModel agentName event hist (Except.ok res)).1.all
      (fun op => !op.isSendResponse) = true ∧
    (runAgentModel agentName event hist (Except.ok res)).2 =
      { success := true, response := some res.content, tokensUsed := some res.tokensUsed } := by
  refine ⟨?_, ?_, rfl⟩
  · exact getLast?_cons_append_single _ _ _
  · rw [List.all_eq_true]
    intro op hop
    simp only [runAgentModel, List.mem_cons, List.mem_append, List.mem_map,
      List.mem_singleton] at hop
    rcases hop with rfl | ⟨e, _, rfl⟩ | rfl | h
    · rfl
    · rfl
    · rfl
    · cases h

/-- C3 amended witness: the amended theorem applied to the concrete
fixtures (its statement has no hypotheses; this instantiates it). -/
theorem run_agent_success_reports_responding_witness :
    (runAgentModel "Triage" humanEvent none (Except.ok resFix)).1.getLast? =
      some (PlatformOp.sendActivity
        { type := "responding",
          message := "[Agent: " ++ "Triage" ++ "]\n\n" ++ resFix.content }) ∧
    (runAgentModel "Triage" humanEvent none (Except.ok resFix)).1.all
      (fun op => !op.isSendResponse) = true ∧
    (runAgentModel "Triage" humanEvent none (Except.ok resFix)).2 =
      { success := true, response := some resFix.content,
        tokensUsed := some resFix.tokensUsed } :=
  run_agent_success_reports_responding "Triage" humanEvent none resFix

/-- C6: the webhook pipeline response is fully determined by the
stages in order: unknown provider 404; failed verification 401;
null parse 200 ignored; filtered event 200 skipped; no configured
agent 200 no_matching_agent; otherwise 200 processing with the first
agent dispatched, and the HTTP response is independent of the
dispatched run outcome. -/
theorem webhook_pipeline_stages (platforms : List PlatformModel) (agents : List AgentConfig)
    (provider body signature : String) (llmOutcome : Except String SendResult) :
    (platformLookup platforms provider = none →
      handleWebhook platforms agents provider body signature llmOutcome =
        ({ status := 404,
           body := "\x7b\"error\":\"Unknown platform: " ++ provider ++ "\"\x7d" }, [])) ∧
    (∀ pf, platformLookup platforms provider = some pf →
      (pf.verifyWebhook body signature = false →
        handleWebhook platforms agents provider body signature llmOutcome =
          ({ status := 401, body := "\x7b\"error\":\"Invalid webhook signature\"\x7d" }, [])) ∧
      (pf.verifyWebhook body signature = true →
        (pf.parseWebhookEvent body = none →
          handleWebhook platforms agents provider body signature llmOutcome =
            ({ status := 200, body := "\x7b\"status\":\"ignored\"\x7d" }, [])) ∧
        (∀ event, pf.parseWebhookEvent body = some event →
          (pf.shouldProcessEvent event = false →
            handleWebhook platforms agents provider body signature llmOutcome =
              ({ status := 200, body := "\x7b\"status\":\"skipped\"\x7d" }, [])) ∧
          (pf.shouldProcessEvent event = true →
            (agents = [] →
              handleWebhook platforms agents provider body signature llmOutcome =
                ({ status := 200, body := "\x7b\"status\":\"no_matching_agent\"\x7d" }, [])) ∧
            (∀ a rest, agents = a :: rest →
              handleWebhook platforms agents provider body signature llmOutcome =
                ({ status := 200, body := "\x7b\"status\":\"processing\"\x7d" },
                 (runAgentModel a.name event none llmOutcome).1) ∧
              ∀ otherOutcome,
                (handleWebhook platforms agents provider body signature otherOutcome).1 =
                  { status := 200, body := "\x7b\"status\":\"processing\"\x7d" }))))) := by
  constructor
  · intro hnone
    simp [handleWebhook, hnone]
  · intro pf hsome
    constructor
    · intro hv
      simp [handleWebhook, hsome, hv]
    · intro hv
      constructor
      · intro hp
        simp [handleWebhook, hsome, hv, hp]
      · intro event hp
        constructor
        · intro hs
          simp [handleWebhook, hsome, hv, hp, hs]
        · intro hs
          constructor
          · intro ha
            simp [handleWebhook, hsome, hv, hp, hs, ha, findAgentForEvent]
          · intro a rest ha
            constructor
            · simp [handleWebhook, hsome, hv, hp, hs, ha, findAgentForEvent]
            · intro otherOutcome
              simp [handleWebhook, hsome, hv, hp, hs, ha, findAgentForEvent]

/-- C6 witness: the pipeline applied to concrete fixtures on the full
processing path, including independence of the HTTP response from a
failing run outcome. -/
theorem webhook_pipeline_stages_witness :
    handleWebhook [pmHuman] [agentFix] "linear" "body" "good" (Except.ok resFix) =
      ({ status := 200, body := "\x7b\"status\":\"processing\"\x7d" },
       (runAgentModel "Triage" humanEvent none (Except.ok resFix)).1) ∧
    (handleWebhook [pmHuman] [agentFix] "linear" "body" "good" (Except.error "boom")).1 =
      { status := 200, body := "\x7b\"status\":\"processing\"\x7d" } := by
  have h := ((((webhook_pipeline_stages [pmHuman] [agentFix] "linear" "body" "good"
      (Except.ok resFix)).2 pmHuman rfl).2 rfl).2 humanEvent rfl).2 rfl
  have h2 := (h.2 agentFix [] rfl)
  exact ⟨h2.1, h2.2 (Except.error "boom")⟩

/-- All blocks of a list with no last tool-related index are not
tool-related. -/
theorem lastToolIdx?_none :
    ∀ {l : List ContentBlock}, lastToolIdx? l = none → ∀ b ∈ l, b.isToolRelated = false := by
  intro l
  induction l with
  | nil => intro _ b hb; cases hb
  | cons x xs ih =>
    intro h b hb
    unfold lastToolIdx? at h
    cases hx : lastToolIdx? xs with
    | some k => rw [hx] at h; cases h
    | none =>
      rw [hx] at h
      by_cases hxt : x.isToolRelated = true
      · simp [hxt] at h
      · rcases List.mem_cons.mp hb with rfl | hmem
        · exact Bool.eq_false_iff.mpr hxt
        · exact ih hx b hmem

/-- The last tool-related index points at a tool-related block and
every later position holds a block that is not tool-related. -/
theorem lastToolIdx?_spec :
    ∀ {l : List ContentBlock} {k : Nat}, lastToolIdx? l = some k →
      (∃ b, l.get? k = some b ∧ b.isToolRelated = true) ∧
      (∀ j b, k < j → l.get? j = some b → b.isToolRelated = false) := by
  intro l
  induction l with
  | nil => intro k h; cases h
  | cons x xs ih =>
    intro k h
    unfold lastToolIdx? at h
    cases hx : lastToolIdx? xs with
    | some k0 =>
      rw [hx] at h
      injection h with h
      subst h
      obtain ⟨⟨b, hb, hbt⟩, hafter⟩ := ih hx
      refine ⟨⟨b, by simpa using hb, hbt⟩, ?_⟩
      intro j b2 hj hget
      cases j with
      | zero => omega
      | succ j0 =>
        simp only [List.get?_cons_succ] at hget
        exact hafter j0 b2 (by omega) hget
    | none =>
      rw [hx] at h
      by_cases hxt : x.isToolRelated = true
      · simp only [hxt, if_true] at h
        injection h with h
        subst h
        refine ⟨⟨x, rfl, hxt⟩, ?_⟩
        intro j b2 hj hget
        cases j with
        | zero => omega
        | succ j0 =>
          simp only [List.get?_cons_succ] at hget
          exact lastToolIdx?_none hx b2 (List.get?_mem hget)
      · simp [hxt] at h

/-- A list with a tool-related member has a last tool-related index. -/
theorem lastToolIdx?_isSome :
    ∀ {l : List ContentBlock} {b0 : ContentBlock}, b0 ∈ l → b0.isToolRelated = true →
      ∃ k, lastToolIdx? l = some k := by
  intro l
  induction l with
  | nil => intro b0 h; cases h
  | cons x xs ih =>
    intro b0 hmem hb0
    unfold lastToolIdx?
    cases hx : lastToolIdx? xs with
    | some k => exact ⟨k + 1, rfl⟩
    | none =>
      rcases List.mem_cons.mp hmem with rfl | hmem2
      · exact ⟨0, by simp [hb0]⟩
      · obtain ⟨k, hk⟩ := ih hmem2 hb0
        rw [hk] at hx
        cases hx

/-- A truthy text block strictly before the last tool-related index is
reported by the sequential server-branch processing. -/
theorem interim_mem_serverEvents :
    ∀ (l : List ContentBlock) (start i : Nat) (lastIdx : Int) (b : ContentBlock) (t : String),
      l.get? i = some b → b.type = "text" → b.text = some t → t ≠ "" →
      ((start + i : Nat) : Int) < lastIdx →
      CallbackEvent.interimText t ∈ serverBranchEventsAux lastIdx start l := by
  intro l
  induction l with
  | nil => intro start i lastIdx b t hget; simp at hget
  | cons x xs ih =>
    intro start i lastIdx b t hget htype htext hne hlt
    cases i with
    | zero =>
      have hxb : x = b := by simpa using hget
      subst hxb
      unfold serverBranchEventsAux
      have hlt0 : ((start : Nat) : Int) < lastIdx := by omega
      have hcond : (x.type == "text" && optStrTruthy x.text &&
          decide (((start : Nat) : Int) < lastIdx)) = true := by
        rw [htype, htext]
        simp [optStrTruthy, hne, hlt0]
      rw [hcond]
      simp [htext]
    | succ i0 =>
      simp only [List.get?_cons_succ] at hget
      have hmem : CallbackEvent.interimText t ∈ serverBranchEventsAux lastIdx (start + 1) xs :=
        ih (start + 1) i0 lastIdx b t hget htype htext hne (by omega)
      unfold serverBranchEventsAux
      exact List.mem_append.mpr (Or.inr hmem)

/-- C1 counterexample: a response whose first block is a text block
with empty text, strictly before the last tool-related block at index
one, yet the loop body reports no interim-text callback for it (the
source requires truthy text).  This refutes the claim that each text
block strictly before the last tool-related block is reported via the
interim-text callback. -/
theorem interim_text_skips_empty_counterexample :
    rC1bad.content.get? 0 = some { type := "text", text := some "" } ∧
    (rC1bad.content.get? 1).map ContentBlock.isToolRelated = some true ∧
    (rC1bad.content.get? 2).map ContentBlock.isToolRelated = some false ∧
    (stepResponse [] rC1bad).continueLoop = false ∧
    (stepResponse [] rC1bad).events = [CallbackEvent.toolUse "s1" "web_search" "\x7b\x7d"] ∧
    CallbackEvent.interimText "" ∉ (stepResponse [] rC1bad).events := by
  decide

/-- C1 amended: on a response containing a server-managed or
externally-routed tool block, the loop terminates in that iteration
with the message buffer unchanged, the final answer is the text of the
blocks strictly after the last tool-related index joined with newlines
and trimmed, and every text block with non-empty text strictly before
that index is reported via the interim-text callback. -/
theorem server_tool_response_single_iteration (messages : List ChatMessage)
    (data : ApiResponse)
    (h : data.content.any (fun b => b.type == "server_tool_use" ||
          b.type == "mcp_tool_use") = true) :
    ∃ k : Nat,
      (∃ b, data.content.get? k = some b ∧ b.isToolRelated = true) ∧
      (∀ j b, k < j → data.content.get? j = some b → b.isToolRelated = false) ∧
      (stepResponse messages data).continueLoop = false ∧
      (stepResponse messages data).messages = messages ∧
      (stepResponse messages data).finalContent =
        jsTrim (String.intercalate "\n"
          (((data.content.drop (k + 1)).filter (fun b => b.type == "text")).map
            (fun b => b.text.getD ""))) ∧
      (∀ i b t, i < k → data.content.get? i = some b → b.type = "text" → b.text = some t →
        t ≠ "" → CallbackEvent.interimText t ∈ (stepResponse messages data).events) := by
  obtain ⟨b0, hb0mem, hb0⟩ := List.any_eq_true.mp h
  have hb0tr : b0.isToolRelated = true := by
    rcases Bool.or_eq_true_iff.mp hb0 with h1 | h1 <;>
      simp [ContentBlock.isToolRelated, h1]
  obtain ⟨k, hk⟩ := lastToolIdx?_isSome hb0mem hb0tr
  obtain ⟨⟨bk, hbk, hbkt⟩, hafter⟩ := lastToolIdx?_spec hk
  have hcond : (data.content.any (fun b => b.type == "server_tool_use") ||
      data.content.any (fun b => b.type == "mcp_tool_use")) = true := by
    rcases Bool.or_eq_true_iff.mp hb0 with h1 | h1
    · exact Bool.or_eq_true_iff.mpr (Or.inl (List.any_eq_true.mpr ⟨b0, hb0mem, h1⟩))
    · exact Bool.or_eq_true_iff.mpr (Or.inr (List.any_eq_true.mpr ⟨b0, hb0mem, h1⟩))
  have hidx : lastToolRelatedIndex data.content = (k : Int) := by
    unfold lastToolRelatedIndex
    rw [hk]
    rfl
  have htonat : (((k : Int) + 1)).toNat = k + 1 := by omega
  have hstep : stepResponse messages data =
      { messages := messages,
        events := serverBranchEventsAux ((k : Int)) 0 data.content,
        continueLoop := false,
        finalContent := jsTrim (textsJoined (data.content.drop (k + 1))) } := by
    simp only [stepResponse, hcond, if_true, hidx, htonat]
  refine ⟨k, ⟨bk, hbk, hbkt⟩, hafter, ?_, ?_, ?_, ?_⟩
  · rw [hstep]
  · rw [hstep]
  · rw [hstep]
    rfl
  · intro i b t hik hget htype htext hne
    rw [hstep]
    exact interim_mem_serverEvents data.content 0 i ((k : Int)) b t hget htype htext hne
      (by omega)

/-- C1 witness: the amended theorem applied to the concrete response
of one server-managed tool-use block followed by one text block, plus
the particular case of the claim: a full sendMessage call over that
single scripted response completes in exactly one iteration with the
trimmed text as the final answer. -/
theorem server_tool_response_single_iteration_witness :
    (∃ k : Nat,
      (∃ b, rC1.content.get? k = some b ∧ b.isToolRelated = true) ∧
      (∀ j b, k < j → rC1.content.get? j = some b → b.isToolRelated = false) ∧
      (stepResponse [] rC1).continueLoop = false ∧
      (stepResponse [] rC1).messages = [] ∧
      (stepResponse [] rC1).finalContent =
        jsTrim (String.intercalate "\n"
          (((rC1.content.drop (k + 1)).filter (fun b => b.type == "text")).map
            (fun b => b.text.getD ""))) ∧
      (∀ i b t, i < k → rC1.content.get? i = some b → b.type = "text" → b.text = some t →
        t ≠ "" → CallbackEvent.interimText t ∈ (stepResponse [] rC1).events)) ∧
    sendMessage (some "hi") none [rC1] =
      Except.ok (some
        { content := "The answer.", tokensUsed := 15,
          events := [CallbackEvent.toolUse "s1" "web_search" "\x7b\"q\":\"x\"\x7d"],
          iterations := 1,
          finalMessages := [{ role := "user", content := MessageContent.text "hi" }] }) :=
  ⟨server_tool_response_single_iteration [] rC1 (by decide), by decide⟩

/-- A completed run of the loop driver performed some positive number
of iterations, bounded by the script length, and its returned token
total is the starting total plus the sum of input and output tokens of
the consumed responses. -/
theorem runLoop_tokens :
    ∀ (rs : List ApiResponse) (messages : List ChatMessage) (tok : Nat)
      (events : List CallbackEvent) (iters : Nat) (res : SendResult),
      runLoop messages tok events iters rs = some res →
      ∃ n, 0 < n ∧ n ≤ rs.length ∧ res.iterations = iters + n ∧
        res.tokensUsed = tok + ((rs.take n).map
          (fun r => r.usage.input_tokens + r.usage.output_tokens)).sum := by
  intro rs
  induction rs with
  | nil => intro _ _ _ _ _ h; cases h
  | cons r rest ih =>
    intro messages tok events iters res h
    simp only [runLoop] at h
    by_cases hc : (stepResponse messages r).continueLoop = true
    · rw [if_pos hc] at h
      obtain ⟨n, hn0, hnle, hit, htok⟩ := ih _ _ _ _ _ h
      refine ⟨n + 1, by omega, ?_, by omega, ?_⟩
      · simp only [List.length_cons]
        omega
      · simp only [List.take_succ_cons, List.map_cons, List.sum_cons]
        omega
    · rw [if_neg hc] at h
      injection h with h
      subst h
      exact ⟨1, by omega, by simp, by simp, by simp; omega⟩

/-- C8: the tokensUsed value a completed sendMessage call returns is
the cumulative sum of input plus output tokens over all the loop
iterations it performed, not the last usage. -/
theorem tokens_used_cumulative (u : Option String) (c : Option (List ConvMessage))
    (rs : List ApiResponse) (res : SendResult)
    (h : sendMessage u c rs = Except.ok (some res)) :
    0 < res.iterations ∧ res.iterations ≤ rs.length ∧
    res.tokensUsed = ((rs.take res.iterations).map
      (fun r => r.usage.input_tokens + r.usage.output_tokens)).sum := by
  unfold sendMessage at h
  split at h
  · cases h
  · injection h with h
    obtain ⟨n, hn0, hnle, hit, htok⟩ := runLoop_tokens rs _ 0 [] 0 res h
    have hn : n = res.iterations := by omega
    subst hn
    exact ⟨by omega, hnle, by omega⟩

/-- C8 witness: the token-accounting theorem applied to a concrete
two-iteration script (a caller-managed tool turn, then a final text
turn), whose returned total is the sum over both iterations. -/
theorem tokens_used_cumulative_witness :
    sendMessage (some "hi") none [dataC2, rFinal] = Except.ok (some resC8) ∧
    (0 < resC8.iterations ∧ resC8.iterations ≤ [dataC2, rFinal].length ∧
      resC8.tokensUsed = (([dataC2, rFinal].take resC8.iterations).map
        (fun r => r.usage.input_tokens + r.usage.output_tokens)).sum) :=
  ⟨by decide, tokens_used_cumulative (some "hi") none [dataC2, rFinal] resC8 (by decide)⟩

/-- Characters with equal code points are equal. -/
theorem char_eq_of_toNat_eq {c d : Char} (h : c.toNat = d.toNat) : c = d :=
  Char.ext (UInt32.ext h)

/-- The UTF-8 encoding of a character is never empty. -/
theorem utf8EncodeCharNat_ne_nil (c : Char) : utf8EncodeCharNat c ≠ [] := by
  simp only [utf8EncodeCharNat]
  split_ifs <;> simp

/-- An ASCII character encodes to its single code point byte. -/
theorem utf8EncodeCharNat_ascii {c : Char} (h : c.toNat < 128) :
    utf8EncodeCharNat c = [c.toNat] := by
  unfold utf8EncodeCharNat
  rw [if_pos h]

/-- A non-ASCII character encodes to a byte list whose first byte is
at least 128. -/
theorem utf8EncodeCharNat_head_large {c : Char} (h : ¬c.toNat < 128) :
    ∃ b rest, utf8EncodeCharNat c = b :: rest ∧ 128 ≤ b := by
  unfold utf8EncodeCharNat
  rw [if_neg h]
  split_ifs
  · exact ⟨_, _, rfl, by omega⟩
  · exact ⟨_, _, rfl, by omega⟩
  · exact ⟨_, _, rfl, by omega⟩

/-- UTF-8 decoding against an all-ASCII reference: if a character list
encodes to the same bytes as an all-ASCII character list, the two
lists are equal. -/
theorem utf8_eq_of_ascii :
    ∀ (e : List Char), (∀ c ∈ e, c.toNat < 128) →
      ∀ (s : List Char),
        (s.map utf8EncodeCharNat).flatten = (e.map utf8EncodeCharNat).flatten → s = e := by
  intro e
  induction e with
  | nil =>
    intro _ s h
    cases s with
    | nil => rfl
    | cons c cs =>
      exfalso
      simp only [List.map_cons, List.flatten_cons, List.map_nil, List.flatten_nil,
        List.append_eq_nil] at h
      exact utf8EncodeCharNat_ne_nil c h.1
  | cons d ds ih =>
    intro hascii s h
    cases s with
    | nil =>
      exfalso
      simp only [List.map_nil, List.flatten_nil, List.map_cons, List.flatten_cons] at h
      have hd : d.toNat < 128 := hascii d (List.mem_cons_self d ds)
      rw [utf8EncodeCharNat_ascii hd] at h
      exact List.cons_ne_nil _ _ h.symm
    | cons c cs =>
      simp only [List.map_cons, List.flatten_cons] at h
      have hd : d.toNat < 128 := hascii d (List.mem_cons_self d ds)
      rw [utf8EncodeCharNat_ascii hd] at h
      by_cases hc : c.toNat < 128
      · rw [utf8EncodeCharNat_ascii hc] at h
        simp only [List.cons_append, List.nil_append] at h
        injection h with h1 h2
        have hcd : c = d := char_eq_of_toNat_eq h1
        subst hcd
        rw [ih (fun x hx => hascii x (List.mem_cons_of_mem _ hx)) cs h2]
      · exfalso
        obtain ⟨b, rest, henc, hb⟩ := utf8EncodeCharNat_head_large hc
        rw [henc] at h
        simp only [List.cons_append, List.nil_append] at h
        injection h with h1 _
        omega

/-- Hex digit characters are ASCII. -/
theorem hexDigitChar_ascii (n : Nat) : (hexDigitChar n).toNat < 128 := by
  unfold hexDigitChar
  split <;> decide

/-- Every character of a hex digest string is ASCII. -/
theorem bytesToHex_ascii (bs : List Nat) : ∀ c ∈ (bytesToHex bs).data, c.toNat < 128 := by
  intro c hc
  simp only [bytesToHex, List.mem_flatten, List.mem_map] at hc
  obtain ⟨l, ⟨b, _, rfl⟩, hcl⟩ := hc
  simp only [List.mem_cons, List.mem_singleton, List.not_mem_nil, or_false] at hcl
  rcases hcl with rfl | rfl <;> exact hexDigitChar_ascii _

/-- Equality of UTF-8 byte encodings against a hex digest string
implies equality of the strings. -/
theorem string_eq_of_utf8_eq_hex {s : String} {bs : List Nat}
    (h : utf8Bytes s = utf8Bytes (bytesToHex bs)) : s = bytesToHex bs := by
  have hd : s.data = (bytesToHex bs).data :=
    utf8_eq_of_ascii (bytesToHex bs).data (bytesToHex_ascii bs) s.data h
  cases s with
  | mk d1 =>
    cases hhex : bytesToHex bs with
    | mk d2 =>
      rw [hhex] at hd
      simp only at hd
      rw [hd]

/-- C5 counterexample: with a configured secret and a non-empty
signature whose byte length differs from the digest length, the
verification throws the Node timingSafeEqual length error instead of
returning false.  This refutes the claim that verifyWebhook returns a
boolean for every signature, never throwing, and returns false when
the length differs. -/
theorem verify_webhook_throws_counterexample :
    verifyLinearWebhook "p" "abc" "s" =
      Except.error "Input buffers must have the same byte length" ∧
    linearPlatformVerifyWebhook (some "s") "p" "abc" =
      Except.error "Input buffers must have the same byte length" := by
  constructor <;> rfl

/-- C5 amended: verification is permissively true when no secret (or
an empty secret) is configured; with a configured secret it returns
false for an empty signature, returns true if and only if the
signature equals the lowercase hex HMAC-SHA256 digest of the raw body
whenever the signature has the byte length of that digest, and throws
the timingSafeEqual length error for a non-empty signature whose byte
length differs from the digest length. -/
theorem verify_webhook_characterization (payload signature secret : String) :
    linearPlatformVerifyWebhook none payload signature = Except.ok true ∧
    linearPlatformVerifyWebhook (some "") payload signature = Except.ok true ∧
    (secret ≠ "" →
      verifyLinearWebhook payload signature secret =
        (if signature = "" then Except.ok false
         else if (utf8Bytes signature).length =
             (utf8Bytes (hmacSha256Hex (utf8Bytes secret) (utf8Bytes payload))).length then
           Except.ok (decide
             (signature = hmacSha256Hex (utf8Bytes secret) (utf8Bytes payload)))
         else Except.error "Input buffers must have the same byte length")) := by
  refine ⟨rfl, rfl, ?_⟩
  intro hsecret
  have hsec : (secret == "") = false := beq_eq_false_iff_ne.mpr hsecret
  by_cases hsig : signature = ""
  · subst hsig
    simp [verifyLinearWebhook, hsec]
  · have hsigb : (signature == "") = false := beq_eq_false_iff_ne.mpr hsig
    rw [if_neg hsig]
    unfold verifyLinearWebhook timingSafeEqual hmacSha256Hex
    rw [hsec, hsigb]
    rw [if_neg (show ¬((false || false) = true) by decide)]
    by_cases hlen : (utf8Bytes signature).length =
        (utf8Bytes (bytesToHex (hmacSha256 (utf8Bytes secret) (utf8Bytes payload)))).length
    · rw [if_pos hlen, if_pos hlen]
      congr 1
      by_cases heq : signature = bytesToHex (hmacSha256 (utf8Bytes secret) (utf8Bytes payload))
      · subst heq
        simp
      · have hbytes : utf8Bytes signature ≠
            utf8Bytes (bytesToHex (hmacSha256 (utf8Bytes secret) (utf8Bytes payload))) :=
          fun hb => heq (string_eq_of_utf8_eq_hex hb)
        simp [heq, hbytes]
    · rw [if_neg hlen, if_neg hlen]

/-- C5 witness: the characterization applied to a concrete secret and
payload: no secret configured accepts, the empty signature is
rejected without error, and the genuine digest of the payload under
the secret verifies. -/
theorem verify_webhook_characterization_witness :
    linearPlatformVerifyWebhook none "p" "abc" = Except.ok true ∧
    verifyLinearWebhook "p" "" "s" = Except.ok false ∧
    verifyLinearWebhook "p"
      "9d97373bced51883ef60d48f996df9497e2f90a9e680d273e90ce8ff5a88daf2" "s" =
      Except.ok true := by
  have t1 := (verify_webhook_characterization "p" "abc" "s").1
  have t2 := (verify_webhook_characterization "p" "" "s").2.2 (by decide)
  have t3 := (verify_webhook_characterization "p"
    "9d97373bced51883ef60d48f996df9497e2f90a9e680d273e90ce8ff5a88daf2" "s").2.2 (by decide)
  refine ⟨t1, ?_, ?_⟩
  · rw [t2]
    decide
  · rw [t3]
    decide

/-- The SHA-256 model reproduces the FIPS 180-4 test vector for the
message abc. -/
theorem sha256_fips_vector_abc :
    bytesToHex (sha256Bytes (utf8Bytes "abc")) =
      "ba7816bf8f01cfea414140de5dae2223b00361a396177a9cb410ff61f20015ad" := by
  decide

/-- The HMAC-SHA256 model reproduces the published test vector for the
key key over the quick-brown-fox message. -/
theorem hmac_sha256_rfc_vector :
    hmacSha256Hex (utf8Bytes "key")
        (utf8Bytes "The quick brown fox jumps over the lazy dog") =
      "f7bc83f430538424b13298e6aa6fb143ef4d59a14946175997479dbc2d1a3cd8" := by
  decide

end Sniff
